import Mathlib

/-!
Verification of the findings-aggregation and scoring pipeline of the
security-audit scripts (`scripts/security-audit/security-scanner.py` and
`scripts/security-audit/owasp-top10-tests.py`).

The embedding models findings as records with string-valued severity and
OWASP category (the Python code stores them as dict entries with string
fields), the severity-count accumulation of `SecurityScanner.generate_report`
as an `Option`-valued fold (a dict lookup on a missing key raises `KeyError`,
which aborts the computation), the scoring formulas over `Int`/`ℚ`, and the
recommendation derivation as concatenation of fixed bullet lists guarded by
the presence tests the code performs.
-/

namespace SecurityAudit

/-- Finding record: `log_vulnerability` / `log_finding` build a dict with
severity, title, description and evidence (plus a timestamp, metadata that no
aggregation reads); `log_finding` additionally stores `owasp_category`.
The scanner-side functions ignore `owasp_category`. -/
structure Finding where
  owasp_category : String
  severity : String
  title : String
  description : String
  evidence : String
deriving Repr, DecidableEq

/-- Severity counters of `generate_report`: the dict
`{'CRITICAL': 0, 'HIGH': 0, 'MEDIUM': 0, 'LOW': 0, 'INFO': 0}`. -/
structure SevCounts where
  critical : Nat
  high : Nat
  medium : Nat
  low : Nat
  info : Nat
deriving Repr, DecidableEq

/-- One step of the accumulation `severity_counts[vuln['severity']] += 1`:
a key among the five bumps its counter, any other key raises `KeyError`
(modelled as `none`). -/
def bumpSeverity (c : SevCounts) (s : String) : Option SevCounts :=
  if s = "CRITICAL" then some { c with critical := c.critical + 1 }
  else if s = "HIGH" then some { c with high := c.high + 1 }
  else if s = "MEDIUM" then some { c with medium := c.medium + 1 }
  else if s = "LOW" then some { c with low := c.low + 1 }
  else if s = "INFO" then some { c with info := c.info + 1 }
  else none

/-- The loop `for vuln in self.vulnerabilities: severity_counts[...] += 1`
of `generate_report`, stopping at the first unknown severity. -/
def computeSeverityCounts : List Finding → SevCounts → Option SevCounts
  | [], c => some c
  | f :: rest, c =>
      (bumpSeverity c f.severity).bind (fun c2 => computeSeverityCounts rest c2)

/-- The five severity keys of the counter dict. -/
def sevKeys : List String := ["CRITICAL", "HIGH", "MEDIUM", "LOW", "INFO"]

/-- Lexicographic comparison of character lists by code point. -/
def lexLeChars : List Char → List Char → Bool
  | [], _ => true
  | _ :: _, [] => false
  | a :: as, b :: bs =>
      if a.val < b.val then true
      else if a.val = b.val then lexLeChars as bs
      else false

/-- Lexicographic order on strings, the order the spec asks the
recommendation list to be sorted in. -/
def lexLe (a b : String) : Bool := lexLeChars a.data b.data

/-- Specification-side count of the findings carrying a given severity. -/
def countSev (F : List Finding) (s : String) : Nat :=
  (F.filter (fun f => f.severity = s)).length

/-- Security-score computation of `generate_report`: `total_issues` is
`sum(severity_counts.values()) - severity_counts['INFO']`; score is 100 when
it is zero, else `max(0, 100 - (10*CRITICAL + 5*HIGH + 2*MEDIUM + 1*LOW))`. -/
def securityScore (c : SevCounts) : Int :=
  let totalIssues : Nat := (c.critical + c.high + c.medium + c.low + c.info) - c.info
  if totalIssues = 0 then 100
  else max 0 (100 - ((c.critical : Int) * 10 + (c.high : Int) * 5 +
    (c.medium : Int) * 2 + (c.low : Int) * 1))

/-- Bullets appended by `generate_recommendations` when a CRITICAL finding
exists. -/
def criticalRecs : List String :=
  ["🚨 URGENT: Address all CRITICAL vulnerabilities immediately",
   "🔒 Implement proper input validation and sanitization",
   "🛡️ Enable JWT signature verification"]

/-- Bullets appended by `generate_recommendations` when a HIGH finding
exists. -/
def highRecs : List String :=
  ["⚠️ Address HIGH severity vulnerabilities as priority",
   "🔐 Implement proper authorization checks",
   "🚫 Add query complexity and depth limiting"]

/-- Bullets `generate_recommendations` always appends at the end. -/
def generalRecs : List String :=
  ["🔍 Disable GraphQL introspection in production",
   "⏱️ Implement rate limiting for all endpoints",
   "🛡️ Add CSRF protection for mutations",
   "📝 Sanitize all user inputs to prevent XSS",
   "🔒 Use parameterized queries to prevent SQL injection",
   "📊 Implement comprehensive security monitoring",
   "🔄 Regular security audits and penetration testing",
   "📚 Security training for development team"]

/-- The function `SecurityScanner.generate_recommendations`: three bullets if
the comprehension over CRITICAL findings is nonempty, three more if the one
over HIGH findings is, then the eight general bullets. -/
def generate_recommendations (vulnerabilities : List Finding) : List String :=
  (if vulnerabilities.any (fun v => v.severity = "CRITICAL") then criticalRecs else []) ++
  (if vulnerabilities.any (fun v => v.severity = "HIGH") then highRecs else []) ++
  generalRecs

/-- Report dict assembled by `SecurityScanner.generate_report` (the two
metadata fields `scan_timestamp` and `target_url` carry no aggregation
content and are omitted). -/
structure ScanReport where
  security_score : Int
  severity_counts : SevCounts
  total_vulnerabilities : Nat
  vulnerabilities : List Finding
  recommendations : List String
deriving Repr, DecidableEq

/-- The function `SecurityScanner.generate_report`: `none` models the
`KeyError` escape when a finding carries a severity outside the five keys. -/
def generate_report (vulnerabilities : List Finding) : Option ScanReport :=
  match computeSeverityCounts vulnerabilities ⟨0, 0, 0, 0, 0⟩ with
  | none => none
  | some counts =>
      some { security_score := securityScore counts
             severity_counts := counts
             total_vulnerabilities := vulnerabilities.length
             vulnerabilities := vulnerabilities
             recommendations := generate_recommendations vulnerabilities }

/-- Exit-code decision of `security-scanner.py main`: after printing the
report, `sys.exit(1)` when `severity_counts['CRITICAL'] > 0 or
severity_counts['HIGH'] > 0`, otherwise the process ends with code 0. -/
def scanner_exit_code (F : List Finding) : Option Nat :=
  (generate_report F).map (fun r =>
    if r.severity_counts.critical > 0 || r.severity_counts.high > 0 then 1 else 0)

/-- The ten keys of `category_names` in `generate_owasp_report`, in
declaration order. -/
def owaspCategoryKeys : List String :=
  ["A01:2021", "A02:2021", "A03:2021", "A04:2021", "A05:2021",
   "A06:2021", "A07:2021", "A08:2021", "A09:2021", "A10:2021"]

/-- Per-category compliance check of `generate_owasp_report`: the findings
grouped under `cat` are filtered to severity CRITICAL or HIGH, and the
category counts as compliant when that filtered list is empty. -/
def categoryCompliant (findings : List Finding) (cat : String) : Bool :=
  ((findings.filter (fun f => f.owasp_category = cat)).filter
    (fun f => f.severity = "CRITICAL" || f.severity = "HIGH")).isEmpty

/-- Membership test `cat in categories_with_issues` of
`generate_owasp_recommendations`: the set collects the category of every
finding with severity CRITICAL or HIGH. -/
def hasIssue (findings : List Finding) (cat : String) : Bool :=
  findings.any (fun f =>
    (f.severity = "CRITICAL" || f.severity = "HIGH") && f.owasp_category = cat)

/-- Remediation bullets for A01:2021 in `generate_owasp_recommendations`. -/
def a01Recs : List String :=
  ["🔒 Implement proper access control checks for all operations",
   "🔐 Use role-based access control (RBAC) consistently",
   "🛡️ Validate user permissions at the API level"]

/-- Remediation bullets for A02:2021. -/
def a02Recs : List String :=
  ["🔐 Enforce HTTPS for all communications",
   "🔑 Use strong cryptographic algorithms (AES-256, RSA-2048+)",
   "🛡️ Implement proper key management"]

/-- Remediation bullets for A03:2021. -/
def a03Recs : List String :=
  ["💉 Use parameterized queries to prevent SQL injection",
   "🛡️ Implement input validation and sanitization",
   "🔍 Use GraphQL query complexity analysis"]

/-- Remediation bullets for A04:2021. -/
def a04Recs : List String :=
  ["🏗️ Implement proper business logic validation",
   "🔄 Add concurrency controls for critical operations",
   "📋 Conduct threat modeling for business processes"]

/-- Remediation bullets for A05:2021. -/
def a05Recs : List String :=
  ["⚙️ Disable GraphQL introspection in production",
   "🔧 Remove verbose error messages",
   "🛡️ Implement security headers and configurations"]

/-- Remediation bullets for A06:2021. -/
def a06Recs : List String :=
  ["📦 Keep all dependencies up to date",
   "🔍 Regular vulnerability scanning of components",
   "🚫 Remove unused dependencies and features"]

/-- Remediation bullets for A07:2021. -/
def a07Recs : List String :=
  ["🔐 Implement strong authentication mechanisms",
   "🛡️ Add brute force protection",
   "⏰ Use appropriate session timeouts"]

/-- Remediation bullets for A08:2021. -/
def a08Recs : List String :=
  ["✅ Implement JWT signature verification",
   "🔍 Add data integrity checks",
   "🛡️ Use secure software update mechanisms"]

/-- Remediation bullets for A09:2021. -/
def a09Recs : List String :=
  ["📊 Implement comprehensive security logging",
   "🚨 Set up security monitoring and alerting",
   "📈 Monitor for suspicious activities"]

/-- Remediation bullets for A10:2021. -/
def a10Recs : List String :=
  ["🌐 Validate and sanitize all URLs",
   "🚫 Implement URL whitelist for external requests",
   "🔒 Use network segmentation to limit SSRF impact"]

/-- The function `OWASPTop10Tester.generate_owasp_recommendations`: the ten
category checks run in order, each extending the list with its fixed
bullets when the category has a CRITICAL or HIGH finding. -/
def generate_owasp_recommendations (findings : List Finding) : List String :=
  (if hasIssue findings "A01:2021" then a01Recs else []) ++
  (if hasIssue findings "A02:2021" then a02Recs else []) ++
  (if hasIssue findings "A03:2021" then a03Recs else []) ++
  (if hasIssue findings "A04:2021" then a04Recs else []) ++
  (if hasIssue findings "A05:2021" then a05Recs else []) ++
  (if hasIssue findings "A06:2021" then a06Recs else []) ++
  (if hasIssue findings "A07:2021" then a07Recs else []) ++
  (if hasIssue findings "A08:2021" then a08Recs else []) ++
  (if hasIssue findings "A09:2021" then a09Recs else []) ++
  (if hasIssue findings "A10:2021" then a10Recs else [])

/-- Report dict assembled by `OWASPTop10Tester.generate_owasp_report`
(again without the `scan_timestamp` / `target_url` metadata and without the
purely presentational `findings_by_category` / `category_names` maps). -/
structure OwaspReport where
  owasp_compliance_score : ℚ
  compliant_categories : Nat
  total_categories : Nat
  total_findings : Nat
  findings : List Finding
  recommendations : List String
deriving Repr, DecidableEq

/-- The function `OWASPTop10Tester.generate_owasp_report`: compliant
categories are counted over the ten fixed keys, and the compliance score is
`(compliant_categories / total_categories) * 100` (exact division here;
the Python float computes the same value up to rounding of `c / 10`). -/
def generate_owasp_report (findings : List Finding) : OwaspReport :=
  let compliant := (owaspCategoryKeys.filter (fun c => categoryCompliant findings c)).length
  { owasp_compliance_score := ((compliant : ℚ) / 10) * 100
    compliant_categories := compliant
    total_categories := 10
    total_findings := findings.length
    findings := findings
    recommendations := generate_owasp_recommendations findings }

/-- Exit-code decision of `owasp-top10-tests.py main`: the list comprehension
keeps findings with severity CRITICAL, and `main` returns 1 when it is
nonempty, 0 otherwise (`exit(main())` makes that the process exit code). -/
def owasp_main_exit_code (F : List Finding) : Nat :=
  if (F.filter (fun f => f.severity = "CRITICAL")).isEmpty then 0 else 1

/-- Observable behaviour of one probe (test method) during a given scan: the
findings it appended to `self.findings` before returning or raising, and
whether it raised. The probes only ever append to the shared findings list;
no probe reads it. -/
structure ProbeOutcome where
  emitted : List Finding
  faulted : Bool
deriving Repr, DecidableEq

/-- One iteration of the dispatch loop `for test_method in test_methods:
try: test_method() except Exception as e: print(...)`: the findings the probe
logged before a fault are already appended, the exception is caught and only
printed, so the accumulated list grows by exactly the emitted findings. -/
def dispatchProbe (findings : List Finding) (p : ProbeOutcome) : List Finding :=
  findings ++ p.emitted

/-- Findings accumulated by `run_full_scan` / `run_owasp_top10_scan` over the
registered probes, starting from the empty list of the constructor. -/
def run_scan (probes : List ProbeOutcome) : List Finding :=
  probes.foldl dispatchProbe []

/-- Outcomes of the five race-condition worker threads of
`test_a04_insecure_design`: `some b` when the worker appended
`response.status_code == 200` to `race_condition_results`, `none` when the
request raised a network error before the append (the thread dies silently
and contributes nothing to the list). -/
def raceResults (outcomes : List (Option Bool)) : List Bool :=
  outcomes.filterMap id

/-- The reduction `sum(race_condition_results)`: Python sums booleans, so
this counts the `True` entries. -/
def race_success_count (outcomes : List (Option Bool)) : Nat :=
  (raceResults outcomes).count true

/-- The finding logged by the race-condition branch of
`test_a04_insecure_design` when more than one concurrent creation
succeeded. -/
def raceFinding (n : Nat) : Finding :=
  { owasp_category := "A04:2021"
    severity := "MEDIUM"
    title := "Race Condition Vulnerability"
    description := "Concurrent review creation is not properly handled"
    evidence := "Successfully created " ++ toString n ++ " concurrent reviews" }

/-- Race-condition branch of `test_a04_insecure_design`: after joining the
five threads it logs one finding when `successful_concurrent_reviews > 1`,
nothing otherwise. -/
def test_a04_race (outcomes : List (Option Bool)) : List Finding :=
  let successful := race_success_count outcomes
  if successful > 1 then [raceFinding successful] else []

/-! ### Helper lemmas about the severity accumulation -/

theorem countSev_cons (f : Finding) (F : List Finding) (s : String) :
    countSev (f :: F) s = (if f.severity = s then 1 else 0) + countSev F s := by
  simp only [countSev, List.filter_cons]
  split <;> simp_all [Nat.add_comm]

theorem bumpSeverity_some_of_valid (c : SevCounts) (s : String) (h : s ∈ sevKeys) :
    ∃ c2, bumpSeverity c s = some c2 := by
  simp only [sevKeys, List.mem_cons, List.not_mem_nil, or_false] at h
  unfold bumpSeverity
  rcases h with h | h | h | h | h <;> rw [h] <;> simp

theorem bumpSeverity_none_of_invalid (c : SevCounts) (s : String) (h : s ∉ sevKeys) :
    bumpSeverity c s = none := by
  simp only [sevKeys, List.mem_cons, List.not_mem_nil, or_false, not_or] at h
  obtain ⟨h1, h2, h3, h4, h5⟩ := h
  simp [bumpSeverity, h1, h2, h3, h4, h5]

theorem csc_none_iff (F : List Finding) : ∀ c0 : SevCounts,
    computeSeverityCounts F c0 = none ↔ ¬ (∀ f ∈ F, f.severity ∈ sevKeys) := by
  induction F with
  | nil => intro c0; simp [computeSeverityCounts]
  | cons f rest ih =>
    intro c0
    by_cases hf : f.severity ∈ sevKeys
    · obtain ⟨c2, hb⟩ := bumpSeverity_some_of_valid c0 f.severity hf
      simp [computeSeverityCounts, hb, ih c2, hf]
    · have hb := bumpSeverity_none_of_invalid c0 f.severity hf
      simp only [computeSeverityCounts, hb, Option.none_bind, true_iff]
      intro hall
      exact hf (hall f (by simp))

theorem csc_some (F : List Finding) : ∀ c0 c : SevCounts,
    computeSeverityCounts F c0 = some c →
      c.critical = c0.critical + countSev F "CRITICAL" ∧
      c.high = c0.high + countSev F "HIGH" ∧
      c.medium = c0.medium + countSev F "MEDIUM" ∧
      c.low = c0.low + countSev F "LOW" ∧
      c.info = c0.info + countSev F "INFO" := by
  induction F with
  | nil =>
    intro c0 c h
    simp only [computeSeverityCounts, Option.some_inj] at h
    subst h
    simp [countSev]
  | cons f rest ih =>
    intro c0 c h
    simp only [computeSeverityCounts] at h
    cases hb : bumpSeverity c0 f.severity with
    | none => rw [hb] at h; simp at h
    | some c2 =>
      rw [hb] at h
      simp only [Option.some_bind] at h
      have hr := ih c2 c h
      obtain ⟨r1, r2, r3, r4, r5⟩ := hr
      unfold bumpSeverity at hb
      split_ifs at hb with h1 h2 h3 h4 h5 <;>
        first
          | exact Option.noConfusion hb
          | (injection hb with hc2; subst hc2;
             refine ⟨?_, ?_, ?_, ?_, ?_⟩ <;> simp_all [countSev_cons] <;> omega)

theorem countSev_total (F : List Finding) (hv : ∀ f ∈ F, f.severity ∈ sevKeys) :
    countSev F "CRITICAL" + countSev F "HIGH" + countSev F "MEDIUM" +
      countSev F "LOW" + countSev F "INFO" = F.length := by
  induction F with
  | nil => simp [countSev]
  | cons f rest ih =>
    have hf := hv f (by simp)
    have hrest := ih (fun g hg => hv g (by simp [hg]))
    simp only [sevKeys, List.mem_cons, List.not_mem_nil, or_false] at hf
    rcases hf with h | h | h | h | h <;>
      simp [countSev_cons, h, List.length_cons] <;> omega

/-- Characterization of `generate_report` on lists of valid severities. -/
theorem generate_report_some (F : List Finding) (hv : ∀ f ∈ F, f.severity ∈ sevKeys) :
    generate_report F =
      some { security_score := securityScore
               ⟨countSev F "CRITICAL", countSev F "HIGH", countSev F "MEDIUM",
                countSev F "LOW", countSev F "INFO"⟩
             severity_counts :=
               ⟨countSev F "CRITICAL", countSev F "HIGH", countSev F "MEDIUM",
                countSev F "LOW", countSev F "INFO"⟩
             total_vulnerabilities := F.length
             vulnerabilities := F
             recommendations := generate_recommendations F } := by
  unfold generate_report
  cases hc : computeSeverityCounts F ⟨0, 0, 0, 0, 0⟩ with
  | none => exact absurd hv ((csc_none_iff F _).mp hc)
  | some c =>
    obtain ⟨r1, r2, r3, r4, r5⟩ := csc_some F _ c hc
    simp only [Nat.zero_add] at r1 r2 r3 r4 r5
    have : c = ⟨countSev F "CRITICAL", countSev F "HIGH", countSev F "MEDIUM",
        countSev F "LOW", countSev F "INFO"⟩ := by
      cases c; simp_all
    subst this
    rfl

theorem generate_report_none_iff (F : List Finding) :
    generate_report F = none ↔ ¬ (∀ f ∈ F, f.severity ∈ sevKeys) := by
  unfold generate_report
  cases hc : computeSeverityCounts F ⟨0, 0, 0, 0, 0⟩ with
  | none => simpa using (csc_none_iff F _).mp hc
  | some c =>
    simp only [reduceCtorEq, false_iff, not_not]
    intro f hf
    by_contra hbad
    rw [(csc_none_iff F _).mpr (fun hall => hbad (hall f hf))] at hc
    exact absurd hc (by simp)

theorem countSev_eq_zero_iff (F : List Finding) (s : String) :
    countSev F s = 0 ↔ ∀ f ∈ F, f.severity ≠ s := by
  simp [countSev, List.length_eq_zero, List.filter_eq_nil_iff]

theorem countSev_pos (F : List Finding) (f : Finding) (s : String)
    (hf : f ∈ F) (hs : f.severity = s) : 0 < countSev F s :=
  List.length_pos_of_mem (List.mem_filter.mpr ⟨hf, by simp [hs]⟩)

theorem securityScore_nonneg (c : SevCounts) : 0 ≤ securityScore c := by
  unfold securityScore
  dsimp only
  split
  · norm_num
  · exact le_max_left 0 _

theorem securityScore_le_100 (c : SevCounts) : securityScore c ≤ 100 := by
  unfold securityScore
  dsimp only
  split
  · norm_num
  · refine max_le (by norm_num) ?_
    have h1 : (0 : Int) ≤ (c.critical : Int) * 10 + (c.high : Int) * 5 +
        (c.medium : Int) * 2 + (c.low : Int) * 1 := by positivity
    omega

/-! ### Helper lemmas about the OWASP report -/

theorem categoryCompliant_iff (F : List Finding) (cat : String) :
    categoryCompliant F cat = true ↔
      ∀ f ∈ F, f.owasp_category = cat →
        ¬(f.severity = "CRITICAL" ∨ f.severity = "HIGH") := by
  simp only [categoryCompliant, List.isEmpty_iff, List.filter_eq_nil_iff,
    List.mem_filter, decide_eq_true_eq, Bool.or_eq_true, and_imp]

theorem hasIssue_iff (F : List Finding) (cat : String) :
    hasIssue F cat = true ↔
      ∃ f ∈ F, (f.severity = "CRITICAL" ∨ f.severity = "HIGH") ∧
        f.owasp_category = cat := by
  simp [hasIssue, List.any_eq_true]

/-! ### Helper lemmas about the dispatch loop -/

theorem foldl_dispatch_acc (ps : List ProbeOutcome) : ∀ acc : List Finding,
    ps.foldl dispatchProbe acc = acc ++ ps.foldl dispatchProbe [] := by
  induction ps with
  | nil => simp
  | cons p rest ih =>
    intro acc
    simp only [List.foldl_cons, dispatchProbe, List.nil_append]
    rw [ih (acc ++ p.emitted), ih p.emitted, List.append_assoc]

theorem run_scan_append (ps qs : List ProbeOutcome) :
    run_scan (ps ++ qs) = run_scan ps ++ run_scan qs := by
  unfold run_scan
  rw [List.foldl_append]
  exact foldl_dispatch_acc qs _

theorem run_scan_cons (p : ProbeOutcome) (qs : List ProbeOutcome) :
    run_scan (p :: qs) = p.emitted ++ run_scan qs := by
  unfold run_scan
  simp only [List.foldl_cons, dispatchProbe, List.nil_append]
  exact foldl_dispatch_acc qs _

/-! ### Helper lemma about the race-condition harness -/

theorem race_success_count_eq_countP (outcomes : List (Option Bool)) :
    race_success_count outcomes = outcomes.countP (fun o => o = some true) := by
  induction outcomes with
  | nil => rfl
  | cons o rest ih =>
    cases o with
    | none =>
        simp only [race_success_count, raceResults, List.filterMap_cons_none,
          List.countP_cons] at ih ⊢
        simp [ih]
    | some b =>
        cases b <;>
          simp_all [race_success_count, raceResults, List.filterMap_cons_some,
            List.countP_cons, List.count_cons]

theorem generate_report_valid (F : List Finding) (r : ScanReport)
    (h : generate_report F = some r) : ∀ f ∈ F, f.severity ∈ sevKeys := by
  by_contra hbad
  rw [(generate_report_none_iff F).mpr hbad] at h
  exact Option.noConfusion h

/-! ### Claim theorems -/

/-- C1: for every finding list on which `SecurityScanner.generate_report`
returns a report, the security score is 100 when no finding has a severity
other than INFO, equals
`max 0 (100 - (10*CRITICAL + 5*HIGH + 2*MEDIUM + LOW))` when some finding is
not INFO, and is always an integer in [0, 100]. -/
theorem c1_security_score (F : List Finding) (r : ScanReport)
    (h : generate_report F = some r) :
    ((∀ f ∈ F, f.severity = "INFO") → r.security_score = 100) ∧
    ((∃ f ∈ F, f.severity ≠ "INFO") → r.security_score =
       max 0 (100 - (10 * (countSev F "CRITICAL" : Int) +
         5 * (countSev F "HIGH" : Int) + 2 * (countSev F "MEDIUM" : Int) +
         (countSev F "LOW" : Int)))) ∧
    0 ≤ r.security_score ∧ r.security_score ≤ 100 := by
  have hv := generate_report_valid F r h
  rw [generate_report_some F hv] at h
  injection h with h
  subst h
  refine ⟨?_, ?_, securityScore_nonneg _, securityScore_le_100 _⟩
  · intro hall
    have hz : ∀ s, s ≠ "INFO" → countSev F s = 0 := by
      intro s hs
      exact (countSev_eq_zero_iff F s).mpr
        (fun f hf => by rw [hall f hf]; exact fun he => hs he.symm)
    show securityScore _ = 100
    unfold securityScore
    dsimp only
    rw [hz "CRITICAL" (by decide), hz "HIGH" (by decide), hz "MEDIUM" (by decide),
      hz "LOW" (by decide)]
    simp
  · rintro ⟨f, hf, hne⟩
    have hfk := hv f hf
    have hpos : 0 < countSev F "CRITICAL" + countSev F "HIGH" +
        countSev F "MEDIUM" + countSev F "LOW" := by
      simp only [sevKeys, List.mem_cons, List.not_mem_nil, or_false] at hfk
      rcases hfk with hk | hk | hk | hk | hk
      · have := countSev_pos F f "CRITICAL" hf hk; omega
      · have := countSev_pos F f "HIGH" hf hk; omega
      · have := countSev_pos F f "MEDIUM" hf hk; omega
      · have := countSev_pos F f "LOW" hf hk; omega
      · exact absurd hk hne
    show securityScore _ = _
    unfold securityScore
    dsimp only
    rw [if_neg (by omega)]
    congr 1
    ring

/-- C5 counterexample: a finding list with one HIGH (and no CRITICAL) finding
makes `owasp-top10-tests.py main` return exit code 0, contradicting the claim
that both entry points exit 0 only when no CRITICAL or HIGH finding exists. -/
theorem c5_counterexample :
    owasp_main_exit_code [⟨"A01:2021", "HIGH", "t", "d", "e"⟩] = 0 ∧
    ∃ f ∈ [(⟨"A01:2021", "HIGH", "t", "d", "e"⟩ : Finding)],
      f.severity = "CRITICAL" ∨ f.severity = "HIGH" := by decide

/-- C5 amended: on a finding list whose report is produced, the scanner entry
point exits 0 iff no finding has severity CRITICAL or HIGH; the OWASP entry
point exits 0 iff no finding has severity CRITICAL — a HIGH finding alone
does not make its exit code nonzero. -/
theorem c5_exit_codes (F : List Finding) (r : ScanReport)
    (h : generate_report F = some r) :
    (scanner_exit_code F = some 0 ↔
      ∀ f ∈ F, f.severity ≠ "CRITICAL" ∧ f.severity ≠ "HIGH") ∧
    (owasp_main_exit_code F = 0 ↔ ∀ f ∈ F, f.severity ≠ "CRITICAL") := by
  have hv := generate_report_valid F r h
  constructor
  · unfold scanner_exit_code
    rw [generate_report_some F hv]
    simp only [Option.map_some', Option.some_inj]
    have hiff : ∀ c : Bool, ((if c then (1 : Nat) else 0) = 0 ↔ c = false) := by
      intro c; cases c <;> simp
    rw [hiff]
    simp only [Bool.or_eq_false_iff, decide_eq_false_iff_not, Nat.not_lt, Nat.le_zero]
    rw [countSev_eq_zero_iff, countSev_eq_zero_iff]
    constructor
    · rintro ⟨h1, h2⟩ f hf
      exact ⟨h1 f hf, h2 f hf⟩
    · intro hall
      exact ⟨fun f hf => (hall f hf).1, fun f hf => (hall f hf).2⟩
  · unfold owasp_main_exit_code
    split_ifs with hempty
    · simp only [List.isEmpty_iff, List.filter_eq_nil_iff, decide_eq_true_eq] at hempty
      simpa using fun f hf => hempty f hf
    · simp only [List.isEmpty_iff, List.filter_eq_nil_iff, decide_eq_true_eq,
        not_forall] at hempty
      constructor
      · intro h10; exact absurd h10 (by decide)
      · intro hall
        obtain ⟨f, hf, hfc⟩ := hempty
        exact absurd (of_not_not hfc) (hall f hf)

/-- C7: on every finding list whose severities all lie in the five-key set,
the report exists, its severity counters sum to the length of the list, and
`total_vulnerabilities` equals that length. -/
theorem c7_severity_counts_sum (F : List Finding)
    (hv : ∀ f ∈ F, f.severity ∈ sevKeys) :
    ∃ r, generate_report F = some r ∧
      r.severity_counts.critical + r.severity_counts.high +
        r.severity_counts.medium + r.severity_counts.low +
        r.severity_counts.info = F.length ∧
      r.total_vulnerabilities = F.length := by
  refine ⟨_, generate_report_some F hv, ?_, rfl⟩
  simpa using countSev_total F hv

/-- C10: `SecurityScanner.generate_report` produces a report exactly when
every accumulated finding carries one of the five known severities; a single
finding with any other severity string aborts the accumulation (`KeyError`)
and no report is produced. -/
theorem c10_report_partiality (F : List Finding) :
    ((generate_report F).isSome ↔ ∀ f ∈ F, f.severity ∈ sevKeys) ∧
    (generate_report F = none ↔ ∃ f ∈ F, f.severity ∉ sevKeys) := by
  have hnone := generate_report_none_iff F
  constructor
  · cases hgr : generate_report F with
    | none =>
        simp only [Option.isSome_none, Bool.false_eq_true, false_iff]
        exact hnone.mp hgr
    | some r =>
        simp only [Option.isSome_some, true_iff]
        exact generate_report_valid F r hgr
  · rw [hnone]
    push_neg
    simp

theorem ite_sublist (c : Prop) [Decidable c] (l : List String) :
    List.Sublist (if c then l else []) l := by
  split
  · exact List.Sublist.refl l
  · exact List.nil_sublist l

/-- C1 witness: the theorem applied to a single CRITICAL finding. -/
theorem c1_witness :
    ∃ r, generate_report [⟨"A03:2021", "CRITICAL", "t", "d", "e"⟩] = some r ∧
      0 ≤ r.security_score ∧ r.security_score ≤ 100 := by
  cases hr : generate_report [(⟨"A03:2021", "CRITICAL", "t", "d", "e"⟩ : Finding)] with
  | none => exact absurd hr (by decide)
  | some r => exact ⟨r, rfl, (c1_security_score _ r hr).2.2⟩

/-- C5 witness: the amended exit-code theorem applied to a single INFO
finding, where both entry points exit 0. -/
theorem c5_witness :
    scanner_exit_code [(⟨"A05:2021", "INFO", "t", "d", "e"⟩ : Finding)] = some 0 ∧
    owasp_main_exit_code [(⟨"A05:2021", "INFO", "t", "d", "e"⟩ : Finding)] = 0 := by
  cases hr : generate_report [(⟨"A05:2021", "INFO", "t", "d", "e"⟩ : Finding)] with
  | none => exact absurd hr (by decide)
  | some r =>
      have h := c5_exit_codes _ r hr
      exact ⟨h.1.mpr (by decide), h.2.mpr (by decide)⟩

/-- C7 witness: the theorem applied to one finding of each severity. -/
theorem c7_witness :
    ∃ r, generate_report [⟨"A01:2021", "CRITICAL", "t1", "d", "e"⟩,
        ⟨"A02:2021", "HIGH", "t2", "d", "e"⟩, ⟨"A03:2021", "MEDIUM", "t3", "d", "e"⟩,
        ⟨"A04:2021", "LOW", "t4", "d", "e"⟩, ⟨"A05:2021", "INFO", "t5", "d", "e"⟩] =
        some r ∧
      r.severity_counts.critical + r.severity_counts.high +
        r.severity_counts.medium + r.severity_counts.low +
        r.severity_counts.info = 5 ∧
      r.total_vulnerabilities = 5 :=
  c7_severity_counts_sum _ (by decide)

/-- C2: a category is compliant iff it has no finding of severity HIGH or
CRITICAL, findings of severity INFO, LOW or MEDIUM never change any
compliance flag, and the compliance score is the number of compliant
categories among the ten divided by ten times 100. -/
theorem c2_owasp_compliance (F : List Finding) :
    (∀ cat, categoryCompliant F cat = true ↔
        ∀ f ∈ F, f.owasp_category = cat →
          ¬(f.severity = "HIGH" ∨ f.severity = "CRITICAL")) ∧
    (∀ (f : Finding) (cat : String),
        f.severity = "INFO" ∨ f.severity = "LOW" ∨ f.severity = "MEDIUM" →
        categoryCompliant (f :: F) cat = categoryCompliant F cat) ∧
    (generate_owasp_report F).owasp_compliance_score =
      ((owaspCategoryKeys.countP (fun cat =>
          decide (∀ f ∈ F, f.owasp_category = cat →
            ¬(f.severity = "HIGH" ∨ f.severity = "CRITICAL")))) : ℚ) / 10 * 100 := by
  refine ⟨?_, ?_, ?_⟩
  · intro cat
    rw [categoryCompliant_iff]
    constructor
    · intro hc f hf hcat hs
      exact hc f hf hcat hs.symm
    · intro hc f hf hcat hs
      exact hc f hf hcat hs.symm
  · intro f cat hs
    unfold categoryCompliant
    simp only [List.filter_cons]
    rcases hs with h | h | h <;> (split <;> simp [List.filter_cons, h])
  · have hlen : (owaspCategoryKeys.filter (fun c => categoryCompliant F c)).length =
        owaspCategoryKeys.countP (fun cat =>
          decide (∀ f ∈ F, f.owasp_category = cat →
            ¬(f.severity = "HIGH" ∨ f.severity = "CRITICAL"))) := by
      rw [List.countP_eq_length_filter]
      congr 1
      apply List.filter_congr
      intro c hc
      rw [Bool.eq_iff_iff, decide_eq_true_eq, categoryCompliant_iff]
      constructor
      · intro hcc f hf hcat hs
        exact hcc f hf hcat hs.symm
      · intro hcc f hf hcat hs
        exact hcc f hf hcat hs.symm
    unfold generate_owasp_report
    dsimp only
    rw [hlen]

/-- C3: scoring is order-independent — a permutation of the finding list
leaves the security score, the severity counters, the compliance score and
every per-category compliance flag unchanged — and recomputation from the
same list is identical. -/
theorem c3_order_independence (F G : List Finding) (hp : F.Perm G) :
    (generate_report F).map ScanReport.security_score =
      (generate_report G).map ScanReport.security_score ∧
    (generate_report F).map ScanReport.severity_counts =
      (generate_report G).map ScanReport.severity_counts ∧
    (generate_owasp_report F).owasp_compliance_score =
      (generate_owasp_report G).owasp_compliance_score ∧
    (∀ cat, categoryCompliant F cat = categoryCompliant G cat) ∧
    generate_report F = generate_report F ∧
    generate_owasp_report F = generate_owasp_report F := by
  have hcount : ∀ s, countSev F s = countSev G s := by
    intro s
    simp only [countSev, ← List.countP_eq_length_filter]
    exact hp.countP_eq _
  have hcat : ∀ cat, categoryCompliant F cat = categoryCompliant G cat := by
    intro cat
    rw [Bool.eq_iff_iff, categoryCompliant_iff, categoryCompliant_iff]
    constructor
    · intro h f hf
      exact h f (hp.mem_iff.mpr hf)
    · intro h f hf
      exact h f (hp.mem_iff.mp hf)
  have hscore : (generate_owasp_report F).owasp_compliance_score =
      (generate_owasp_report G).owasp_compliance_score := by
    unfold generate_owasp_report
    dsimp only
    simp only [hcat]
  by_cases hv : ∀ f ∈ F, f.severity ∈ sevKeys
  · have hvG : ∀ f ∈ G, f.severity ∈ sevKeys :=
      fun f hf => hv f (hp.mem_iff.mpr hf)
    rw [generate_report_some F hv, generate_report_some G hvG]
    refine ⟨?_, ?_, hscore, hcat, rfl, rfl⟩
    · simp [hcount]
    · simp [hcount]
  · have hvG : ¬ ∀ f ∈ G, f.severity ∈ sevKeys :=
      fun hall => hv (fun f hf => hall f (hp.mem_iff.mp hf))
    rw [(generate_report_none_iff F).mpr hv, (generate_report_none_iff G).mpr hvG]
    exact ⟨rfl, rfl, hscore, hcat, rfl, rfl⟩

/-- C3 witness: the theorem applied to a two-element list and its swap. -/
theorem c3_witness :
    (generate_report [(⟨"A01:2021", "HIGH", "t1", "d1", "e1"⟩ : Finding),
        ⟨"A03:2021", "CRITICAL", "t2", "d2", "e2"⟩]).map ScanReport.security_score =
      (generate_report [(⟨"A03:2021", "CRITICAL", "t2", "d2", "e2"⟩ : Finding),
        ⟨"A01:2021", "HIGH", "t1", "d1", "e1"⟩]).map ScanReport.security_score :=
  (c3_order_independence _ _ (List.Perm.swap _ _ [])).1

/-- C4 counterexample: at the empty finding list the scanner recommendation
list is not sorted in lexicographic order (its second bullet precedes its
first), refuting the sortedness half of the claim. -/
theorem c4_counterexample :
    ¬ List.Sorted (fun a b : String => lexLe a b = true)
      (generate_recommendations []) := by decide

/-- C4 amended: the recommendation lists of both report generators never
contain a duplicate string (the static bullet sets are pairwise disjoint and
each is appended at most once), but the lists are emitted in fixed
registration order, not sorted lexicographically. -/
theorem c4_recommendations_nodup (F : List Finding) :
    (generate_recommendations F).Nodup ∧ (generate_owasp_recommendations F).Nodup := by
  constructor
  · have hfull : (criticalRecs ++ highRecs ++ generalRecs).Nodup := by decide
    refine hfull.sublist ?_
    unfold generate_recommendations
    repeat apply List.Sublist.append
    all_goals first
      | exact ite_sublist _ _
      | exact List.Sublist.refl _
  · have hfull : (a01Recs ++ a02Recs ++ a03Recs ++ a04Recs ++ a05Recs ++ a06Recs ++
        a07Recs ++ a08Recs ++ a09Recs ++ a10Recs).Nodup := by decide
    refine hfull.sublist ?_
    unfold generate_owasp_recommendations
    repeat apply List.Sublist.append
    all_goals exact ite_sublist _ _

/-- C6: when one probe faults after emitting its findings, the dispatch loop
keeps every finding collected before the fault, adds no finding for the
exception itself, still collects the findings of all remaining probes in
order, and the report generator still applies to the collected list. -/
theorem c6_fault_isolation (pre post : List ProbeOutcome) (p : ProbeOutcome)
    (hfault : p.faulted = true) :
    run_scan (pre ++ p :: post) = run_scan pre ++ p.emitted ++ run_scan post ∧
    (run_scan (pre ++ p :: post)).length =
      (run_scan pre).length + p.emitted.length + (run_scan post).length ∧
    ((∀ f ∈ run_scan (pre ++ p :: post), f.severity ∈ sevKeys) →
      (generate_report (run_scan (pre ++ p :: post))).isSome) := by
  have heq : run_scan (pre ++ p :: post) =
      run_scan pre ++ p.emitted ++ run_scan post := by
    rw [run_scan_append, run_scan_cons, List.append_assoc]
  refine ⟨heq, by rw [heq]; simp [Nat.add_assoc], ?_⟩
  intro hv
  rw [generate_report_some _ hv]
  rfl

/-- C6 witness: the theorem applied to a three-probe scan whose middle probe
faults after emitting one finding. -/
theorem c6_witness :
    run_scan ([⟨[(⟨"A01:2021", "HIGH", "t1", "d", "e"⟩ : Finding)], false⟩] ++
        (⟨[⟨"A02:2021", "INFO", "t2", "d", "e"⟩], true⟩ : ProbeOutcome) ::
        [⟨[⟨"A03:2021", "LOW", "t3", "d", "e"⟩], false⟩]) =
      run_scan [(⟨[⟨"A01:2021", "HIGH", "t1", "d", "e"⟩], false⟩ : ProbeOutcome)] ++
        [(⟨"A02:2021", "INFO", "t2", "d", "e"⟩ : Finding)] ++
        run_scan [(⟨[⟨"A03:2021", "LOW", "t3", "d", "e"⟩], false⟩ : ProbeOutcome)] :=
  (c6_fault_isolation _ _ _ rfl).1

/-- C8 counterexample: with zero findings the scanner recommendation list is
not empty — the eight baseline bullets are appended unconditionally. -/
theorem c8_counterexample : generate_recommendations [] ≠ [] := by decide

/-- C8 amended: with zero findings the security score is 100, the OWASP
compliance score is 100 and its recommendation list empty, while the scanner
recommendation list consists of exactly the eight always-on baseline
bullets. -/
theorem c8_zero_findings :
    (generate_report []).map ScanReport.security_score = some 100 ∧
    (generate_owasp_report []).owasp_compliance_score = 100 ∧
    (generate_owasp_report []).recommendations = [] ∧
    generate_recommendations [] = generalRecs := by
  refine ⟨by decide, ?_, by decide, by decide⟩
  have h10 : (owaspCategoryKeys.filter (fun c => categoryCompliant [] c)).length = 10 := by
    decide
  unfold generate_owasp_report
  dsimp only
  rw [h10]
  norm_num

/-- C9: for the race-condition probe, the Race Condition Vulnerability
finding is emitted iff more than one of the five workers observed HTTP
success; when all workers succeed the success count is five, and when
exactly one creation succeeds no finding is emitted. -/
theorem c9_race_condition (outcomes : List (Option Bool))
    (hlen : outcomes.length = 5) :
    ((∃ f ∈ test_a04_race outcomes, f.title = "Race Condition Vulnerability") ↔
      1 < outcomes.countP (fun o => o = some true)) ∧
    ((∀ o ∈ outcomes, o = some true) → race_success_count outcomes = 5) ∧
    (race_success_count outcomes = 1 → test_a04_race outcomes = []) := by
  have hc := race_success_count_eq_countP outcomes
  refine ⟨?_, ?_, ?_⟩
  · rw [← hc]
    unfold test_a04_race
    dsimp only
    split_ifs with hgt
    · simp only [List.mem_singleton]
      constructor
      · intro _
        exact hgt
      · intro _
        exact ⟨raceFinding _, rfl, rfl⟩
    · simp only [List.not_mem_nil, false_and, exists_false, false_iff]
      exact hgt
  · intro hall
    rw [hc]
    have hl : outcomes.countP (fun o => o = some true) = outcomes.length :=
      List.countP_eq_length.mpr (fun o ho => by simp [hall o ho])
    rw [hl, hlen]
  · intro h1
    unfold test_a04_race
    dsimp only
    rw [if_neg (by omega)]

/-- C9 witness: the theorem applied to five worker outcomes with three
successes, where the finding is emitted. -/
theorem c9_witness :
    ∃ f ∈ test_a04_race [some true, some true, none, some false, some true],
      f.title = "Race Condition Vulnerability" :=
  (c9_race_condition [some true, some true, none, some false, some true]
    rfl).1.mpr (by decide)

end SecurityAudit
